import Mathlib

/-!
Verification of the Viennese-time conversion core of the Wiener_Uhr_ESP32
repository: the phrase engine `getWienerZeit` and the line formatter
(`getLineCount`, `getDisplayLines`) from
`src/arduino/Wiener_Uhr_ESP32/wiener_zeit.cpp`, embedded shallowly in Lean.

The C++ draws a pseudo-random bit (seeded from `hour * 100 + minute`) to pick
between two phrasings at minutes 10, 20, 40 and 50; the embedding takes that
draw as the explicit boolean argument `useAlternative`, exactly as the spec
sanctions for testability.  Hours and minutes are embedded as `Nat` (the C++
uses `int`; all in-contract values are nonnegative, and the one out-of-range
input examined below is positive as well).  Arduino `String` values are
embedded as Lean `String`; every string the code manipulates is a short
literal, and the single length test performed (`bezeichner2.length > 2`)
applies only to ASCII literals, where byte length and character length agree.
-/

/-- The minute-name table `minutenInWorten` (index 0 is the empty entry). -/
def minutenInWorten : List String :=
  ["", "eins", "zwei", "drei", "vier", "fünf", "sechs", "sieben",
   "acht", "neun", "zehn", "elf", "zwölf", "dreizehn", "vierzehn"]

/-- The 24-entry hour-name table `volleStundeAusgeschrieben`. -/
def volleStundeAusgeschrieben : List String :=
  ["Eins", "Zwei", "Drei", "Vier", "Fünf", "Sechs", "Sieben",
   "Acht", "Neun", "Zehn", "Elf", "Zwölf",
   "Eins", "Zwei", "Drei", "Vier", "Fünf", "Sechs",
   "Sieben", "Acht", "Neun", "Zehn", "Elf", "Zwölf"]

/-- The `WienerZeit` struct of `wiener_zeit.h`. -/
structure WienerZeit where
  bezeichner : String
  bezeichner2 : String
  stunde : String
deriving DecidableEq, Repr

/-- The fallback used for an (unreachable) out-of-range table read. -/
def leer : String := ""

/-- The minute-band if-chain of `getWienerZeit`: the values assigned to
`result.bezeichner`, `result.bezeichner2` and the local `hourOffset`
(initialised to 0), as a triple, branch for branch from the source. -/
def bandInfo (minute : Nat) (useAlternative : Bool) : String × String × Nat :=
  if minute = 0 then
    ("punkt", leer, 0)
  else if minute = 10 ∧ useAlternative then
    ("zehn nach ", leer, 0)
  else if minute = 20 ∧ useAlternative then
    ("zehn vor ", "halb", 1)
  else if minute = 40 ∧ useAlternative then
    ("zehn nach ", "halb", 1)
  else if minute = 50 ∧ useAlternative then
    ("zehn vor", leer, 1)
  else if minute < 15 then
    if minute < 7 then
      (minutenInWorten.getD minute leer ++ " nach ", leer, 0)
    else
      (minutenInWorten.getD (15 - minute) leer ++ " vor ", "viertel", 1)
  else if minute = 15 then
    ("viertel", leer, 1)
  else if 15 < minute ∧ minute < 30 then
    if minute < 23 then
      (minutenInWorten.getD (minute - 15) leer ++ " nach ", "viertel", 1)
    else
      (minutenInWorten.getD (30 - minute) leer ++ " vor ", "halb", 1)
  else if minute = 30 then
    ("halb", leer, 1)
  else if 30 < minute ∧ minute < 45 then
    if minute < 38 then
      (minutenInWorten.getD (minute - 30) leer ++ " nach ", "halb", 1)
    else
      (minutenInWorten.getD (45 - minute) leer ++ " vor ", "dreiviertel", 1)
  else if minute = 45 then
    ("dreiviertel", leer, 1)
  else
    if minute < 53 then
      (minutenInWorten.getD (minute - 45) leer ++ " nach ", "dreiviertel", 1)
    else
      (minutenInWorten.getD (60 - minute) leer ++ " vor", leer, 1)

/-- Embedding of `getWienerZeit`: the band logic above, then the display-hour resolution
`displayHour = (hour + hourOffset) % 24`, the `0 → 24` wrap, and the hour-name
lookup at `hourIndex = (displayHour - 1) % 24`, exactly as in the source. -/
def getWienerZeit (hour minute : Nat) (useAlternative : Bool) : WienerZeit :=
  let info := bandInfo minute useAlternative
  let displayHour := (hour + info.2.2) % 24
  let displayHour := if displayHour = 0 then 24 else displayHour
  let hourIndex := (displayHour - 1) % 24
  { bezeichner := info.1
    bezeichner2 := info.2.1
    stunde := volleStundeAusgeschrieben.getD hourIndex leer }

/-- Embedding of `getLineCount`: 4 lines when `bezeichner2.length > 2`, else 3. -/
def getLineCount (zeit : WienerZeit) : Nat :=
  if zeit.bezeichner2.length > 2 then 4 else 3

/-- Embedding of `getDisplayLines`: the lines written into the caller's array, in order:
"Es ist", `bezeichner`, then `bezeichner2` when its length exceeds 2, then
`stunde`. -/
def getDisplayLines (zeit : WienerZeit) : List String :=
  ["Es ist", zeit.bezeichner]
    ++ (if zeit.bezeichner2.length > 2 then [zeit.bezeichner2] else [])
    ++ [zeit.stunde]

/-- The hour-name the source computes for a raw hour value `h`:
`(h % 24)` with the `0 → 24` wrap, then table entry `(displayHour - 1) % 24`. -/
def hourNameOf (h : Nat) : String :=
  let displayHour := h % 24
  let displayHour := if displayHour = 0 then 24 else displayHour
  volleStundeAusgeschrieben.getD ((displayHour - 1) % 24) leer

/-- The index into `minutenInWorten` that each branch of the band if-chain
looks up (`none` for branches built from literals only); the chain mirrors
`bandInfo` branch for branch, as a singleton or empty list of indices.  The
bands, and hence the indices, depend only on the minute and the variant draw,
never on the hour. -/
def minuteWordIndicesUsed (minute : Nat) (useAlternative : Bool) : List Nat :=
  if minute = 0 then []
  else if minute = 10 ∧ useAlternative then []
  else if minute = 20 ∧ useAlternative then []
  else if minute = 40 ∧ useAlternative then []
  else if minute = 50 ∧ useAlternative then []
  else if minute < 15 then
    if minute < 7 then [minute] else [15 - minute]
  else if minute = 15 then []
  else if 15 < minute ∧ minute < 30 then
    if minute < 23 then [minute - 15] else [30 - minute]
  else if minute = 30 then []
  else if 30 < minute ∧ minute < 45 then
    if minute < 38 then [minute - 30] else [45 - minute]
  else if minute = 45 then []
  else
    if minute < 53 then [minute - 45] else [60 - minute]

example : getWienerZeit 14 0 false = ⟨"punkt", "", "Zwei"⟩ := by decide
example : getWienerZeit 14 15 false = ⟨"viertel", "", "Drei"⟩ := by decide
example : getWienerZeit 14 12 false = ⟨"drei vor ", "viertel", "Drei"⟩ := by decide
example : getDisplayLines (getWienerZeit 14 12 false)
    = ["Es ist", "drei vor ", "viertel", "Drei"] := by decide

/-- C1: at the four quarter-point minutes the phrase is the fixed word with an
empty qualifier, and the hour shown is the input hour itself at minute 0 and
the next hour at minutes 15, 30 and 45, resolved through the 24-entry hour
table with the 0-to-24 wrap (`hourNameOf`), for either variant draw. -/
theorem quarter_points_fixed_phrases : ∀ h < 24, ∀ a : Bool,
    getWienerZeit h 0 a = ⟨"punkt", "", hourNameOf h⟩
    ∧ getWienerZeit h 15 a = ⟨"viertel", "", hourNameOf (h + 1)⟩
    ∧ getWienerZeit h 30 a = ⟨"halb", "", hourNameOf (h + 1)⟩
    ∧ getWienerZeit h 45 a = ⟨"dreiviertel", "", hourNameOf (h + 1)⟩ := by
  decide

/-- C1 witness at hour 5. -/
theorem quarter_points_fixed_phrases_witness :
    getWienerZeit 5 0 true = ⟨"punkt", "", hourNameOf 5⟩
    ∧ getWienerZeit 5 15 true = ⟨"viertel", "", hourNameOf 6⟩
    ∧ getWienerZeit 5 30 true = ⟨"halb", "", hourNameOf 6⟩
    ∧ getWienerZeit 5 45 true = ⟨"dreiviertel", "", hourNameOf 6⟩ :=
  quarter_points_fixed_phrases 5 (by decide) true

/-- C2: for every phrase value, the formatter emits exactly
["Es ist", leadIn, hourName] when the qualifier has length at most 2 and
exactly ["Es ist", leadIn, qualifier, hourName] otherwise, so line 0 is always
"Es ist", line 1 is always the lead-in (even when empty), the last line is
always the hour name, and the qualifier occupies the line before the last
exactly in the 4-line case. -/
theorem display_lines_shape (z : WienerZeit) :
    (z.bezeichner2.length ≤ 2 → getDisplayLines z = ["Es ist", z.bezeichner, z.stunde])
    ∧ (2 < z.bezeichner2.length →
        getDisplayLines z = ["Es ist", z.bezeichner, z.bezeichner2, z.stunde]) := by
  constructor
  · intro hle
    simp [getDisplayLines, Nat.not_lt.mpr hle]
  · intro hgt
    simp [getDisplayLines, hgt]

/-- C2 witness: a 3-line phrase and a 4-line phrase, evaluated concretely. -/
theorem display_lines_shape_witness :
    getDisplayLines ⟨"punkt", "", "Zwei"⟩ = ["Es ist", "punkt", "Zwei"]
    ∧ getDisplayLines ⟨"drei vor ", "viertel", "Drei"⟩
        = ["Es ist", "drei vor ", "viertel", "Drei"] :=
  ⟨(display_lines_shape ⟨"punkt", "", "Zwei"⟩).1 (by decide),
   (display_lines_shape ⟨"drei vor ", "viertel", "Drei"⟩).2 (by decide)⟩

/-- C3: for every in-range hour and minute and either variant draw, the hour
name is non-empty and one of the 24 table entries, and the qualifier is
non-empty exactly when the display has 4 lines (equivalently, when
`getLineCount` returns 4). -/
theorem phrase_invariants : ∀ h < 24, ∀ m < 60, ∀ a : Bool,
    (getWienerZeit h m a).stunde ≠ ""
    ∧ (getWienerZeit h m a).stunde ∈ volleStundeAusgeschrieben
    ∧ ((getWienerZeit h m a).bezeichner2 ≠ ""
        ↔ (getDisplayLines (getWienerZeit h m a)).length = 4)
    ∧ ((getWienerZeit h m a).bezeichner2 ≠ ""
        ↔ getLineCount (getWienerZeit h m a) = 4) := by
  decide

/-- C3 witness at (14, 12, false), a 4-line case. -/
theorem phrase_invariants_witness :
    (getWienerZeit 14 12 false).stunde ≠ ""
    ∧ (getWienerZeit 14 12 false).stunde ∈ volleStundeAusgeschrieben
    ∧ ((getWienerZeit 14 12 false).bezeichner2 ≠ ""
        ↔ (getDisplayLines (getWienerZeit 14 12 false)).length = 4)
    ∧ ((getWienerZeit 14 12 false).bezeichner2 ≠ ""
        ↔ getLineCount (getWienerZeit 14 12 false) = 4) :=
  phrase_invariants 14 (by decide) 12 (by decide) false

/-- C4: away from minutes 10, 20, 40 and 50, the result does not depend on
the variant draw: both draws give the identical phrase. -/
theorem convert_deterministic : ∀ h < 24, ∀ m < 60,
    m ≠ 10 → m ≠ 20 → m ≠ 40 → m ≠ 50 →
    ∀ a b : Bool, getWienerZeit h m a = getWienerZeit h m b := by
  have hband : ∀ m < 60, ∀ a b : Bool,
      m = 10 ∨ m = 20 ∨ m = 40 ∨ m = 50 ∨ bandInfo m a = bandInfo m b := by decide
  intro h _ m hm h10 h20 h40 h50 a b
  rcases hband m hm a b with hc | hc | hc | hc | hc
  · exact absurd hc h10
  · exact absurd hc h20
  · exact absurd hc h40
  · exact absurd hc h50
  · simp only [getWienerZeit, hc]

/-- C4 witness at (3, 7). -/
theorem convert_deterministic_witness :
    getWienerZeit 3 7 true = getWienerZeit 3 7 false :=
  convert_deterministic 3 (by decide) 7 (by decide) (by decide) (by decide)
    (by decide) (by decide) true false
example : getDisplayLines (getWienerZeit 14 12 false)
    = ["Es ist", "drei vor ", "viertel", "Drei"] := by decide

/-- C5 counterexample: at minute 10 the alternative lead-in is not the exact
string "zehn nach"; the code stores it with a trailing space. -/
theorem alternative_variant_claim_false :
    (getWienerZeit 0 10 true).bezeichner ≠ "zehn nach" := by decide

/-- C5 amended: when the alternative variant is selected, minute 10 gives
lead-in "zehn nach " (trailing space), empty qualifier, hour shift 0;
minute 20 gives "zehn vor " (trailing space), qualifier "halb", shift 1;
minute 40 gives "zehn nach " (trailing space), qualifier "halb", shift 1;
minute 50 gives "zehn vor" (no trailing space), empty qualifier, shift 1. -/
theorem alternative_variant_table : ∀ h < 24,
    getWienerZeit h 10 true = ⟨"zehn nach ", "", hourNameOf h⟩
    ∧ getWienerZeit h 20 true = ⟨"zehn vor ", "halb", hourNameOf (h + 1)⟩
    ∧ getWienerZeit h 40 true = ⟨"zehn nach ", "halb", hourNameOf (h + 1)⟩
    ∧ getWienerZeit h 50 true = ⟨"zehn vor", "", hourNameOf (h + 1)⟩ := by
  decide

/-- C5 witness at hour 7. -/
theorem alternative_variant_table_witness :
    getWienerZeit 7 10 true = ⟨"zehn nach ", "", hourNameOf 7⟩
    ∧ getWienerZeit 7 20 true = ⟨"zehn vor ", "halb", hourNameOf 8⟩
    ∧ getWienerZeit 7 40 true = ⟨"zehn nach ", "halb", hourNameOf 8⟩
    ∧ getWienerZeit 7 50 true = ⟨"zehn vor", "", hourNameOf 8⟩ :=
  alternative_variant_table 7 (by decide)

/-- C6 counterexample: on the non-alternative path, convert(23, 50) does not
give lead-in "zehn vor" with an empty qualifier; minute 50 falls in the
`minute < 53` sub-branch of the `minute > 45` band. -/
theorem convert_23_50_claim_false :
    ¬((getWienerZeit 23 50 false).bezeichner = "zehn vor"
      ∧ (getWienerZeit 23 50 false).bezeichner2 = "") := by decide

/-- C6 amended: convert(23, 50) on the non-alternative path takes the
`minute < 53` sub-branch of the `minute > 45` band, giving lead-in
"fünf nach " (trailing space) and qualifier "dreiviertel", with hour shift 1
so that displayHour = (23+1) % 24 = 0, wrapped to 24, and the hour name is
entry 23 of the hour table, "Zwölf"; the phrasing "zehn vor" with empty
qualifier arises at minute 50 only on the alternative path. -/
theorem convert_23_50_paths :
    getWienerZeit 23 50 false = ⟨"fünf nach ", "dreiviertel", "Zwölf"⟩
    ∧ (getWienerZeit 23 50 false).stunde = volleStundeAusgeschrieben.getD 23 leer
    ∧ getWienerZeit 23 50 true = ⟨"zehn vor", "", "Zwölf"⟩ := by decide

/-- C7 counterexample: convert(14, 5) does not give the exact lead-in
"fünf nach"; the code appends " nach " with a trailing space. -/
theorem convert_14_5_claim_false :
    (getWienerZeit 14 5 false).bezeichner ≠ "fünf nach" := by decide

/-- C7 amended: convert(14, 5) gives lead-in "fünf nach " (trailing space),
empty qualifier, hour shift 0 and hour name "Zwei", for either draw, and
formats to exactly the three lines ["Es ist", "fünf nach ", "Zwei"]. -/
theorem convert_14_5_lines :
    getWienerZeit 14 5 false = ⟨"fünf nach ", "", "Zwei"⟩
    ∧ getWienerZeit 14 5 true = ⟨"fünf nach ", "", "Zwei"⟩
    ∧ getDisplayLines (getWienerZeit 14 5 false)
        = ["Es ist", "fünf nach ", "Zwei"] := by decide

/-- C8: out-of-range hours are not rejected; the code wraps them silently
with `(hour + hourOffset) % 24` and returns an ordinary phrase, so hour 24
yields exactly the phrase of hour 0 and hour 25 that of hour 1. -/
theorem out_of_range_hour_wraps :
    getWienerZeit 24 0 false = getWienerZeit 0 0 false
    ∧ getWienerZeit 24 0 false = ⟨"punkt", "", "Zwölf"⟩
    ∧ getWienerZeit 25 0 false = getWienerZeit 1 0 false := by decide

/-- C9: for every in-range hour and minute and either draw, every index the
band logic feeds to the minute-word table lies in [1, 14], the entry found
there is never the empty index-0 entry, and the lead-in the code actually
builds is that entry followed by one of the connector suffixes, so the empty
entry is never looked up. -/
theorem minute_word_index_safe : ∀ h < 24, ∀ m < 60, ∀ a : Bool,
    ∀ i ∈ minuteWordIndicesUsed m a,
      (1 ≤ i ∧ i ≤ 14)
      ∧ minutenInWorten.getD i leer ≠ ""
      ∧ ((bandInfo m a).1 = minutenInWorten.getD i leer ++ " nach "
          ∨ (bandInfo m a).1 = minutenInWorten.getD i leer ++ " vor "
          ∨ (bandInfo m a).1 = minutenInWorten.getD i leer ++ " vor") := by
  decide

/-- C9 witness at minute 5 (index 5, "fünf nach "). -/
theorem minute_word_index_safe_witness :
    (1 ≤ 5 ∧ 5 ≤ 14)
    ∧ minutenInWorten.getD 5 leer ≠ ""
    ∧ ((bandInfo 5 false).1 = minutenInWorten.getD 5 leer ++ " nach "
        ∨ (bandInfo 5 false).1 = minutenInWorten.getD 5 leer ++ " vor "
        ∨ (bandInfo 5 false).1 = minutenInWorten.getD 5 leer ++ " vor") :=
  minute_word_index_safe 14 (by decide) 5 (by decide) false 5 (by decide)

/-- C10: for every in-range hour and minute and either draw, the lead-in is a
non-empty string, and no line of the formatted display is blank. -/
theorem lead_in_nonempty : ∀ h < 24, ∀ m < 60, ∀ a : Bool,
    (getWienerZeit h m a).bezeichner ≠ ""
    ∧ ∀ line ∈ getDisplayLines (getWienerZeit h m a), line ≠ "" := by
  decide

/-- C10 witness at (0, 30, false). -/
theorem lead_in_nonempty_witness :
    (getWienerZeit 0 30 false).bezeichner ≠ ""
    ∧ ∀ line ∈ getDisplayLines (getWienerZeit 0 30 false), line ≠ "" :=
  lead_in_nonempty 0 (by decide) 30 (by decide) false
